import Mathlib

/-!
Verification of the NHS GP booking system's service layer against its
specification.

The development shallowly embeds two parts of the repository:

* the NHS-number checksum routines `validateNHSNumber` and
  `generateValidNHSNumber` from the frontend script, and
* the `GPConnectService` class (`getPracticeByODS`, `searchAvailableSlots`,
  `bookAppointment`, `generateJWT`, `getMockSlots`, `getMockBookingResponse`).

Modelling conventions:

* Environment variables are collected in an `Env` record.  A JS-falsy value
  (unset or the empty string) is modelled as the empty string, matching the
  source's truthiness tests such as `!process.env.DB_PASSWORD`.
* Each effectful collaborator is passed in explicitly: the practice-table
  query result and its possible exception as `Except String (Option GPPractice)`,
  the outbound HTTP calls as `Except String _` values, the local insert as
  `Except String Unit`.  An `Except.error` value plays the role of a thrown
  exception reaching the surrounding `try`.
* Clock reads (`Date.now()` / `new Date()`) within one synchronous invocation
  are modelled as a single instant `now : Int` in milliseconds since the epoch.
  `toISOString` is an injective, order- and difference-preserving rendering of
  an instant, so timestamps are kept as the underlying instants.
* `uuidv4()` draws are modelled by an explicit supply `uuid : Nat → String`
  read at fixed indices; two distinct runs of the program correspond to two
  distinct supplies, since each run draws fresh random UUIDs.
-/

namespace NHSBooking

/-! ## NHS number checksum (frontend `app.js`, served from the repo's frontend script) -/

/-- Character for a decimal digit, as produced by JavaScript string joining. -/
def digitChar (d : Nat) : Char := Char.ofNat (48 + d)

/-- Numeric value of a digit character, as produced by JavaScript `Number(ch)`
for a single digit character. -/
def digitVal (c : Char) : Nat := c.toNat - 48

/-- String built from a list of decimal digits (JavaScript `digits.join('')`). -/
def digitsToString (ds : List Nat) : String := String.mk (ds.map digitChar)

/-- Weighted sum `Σ digit[i] * (w - i)` of a digit list, starting at weight `w`.
With `w = 10` on the first nine digits this is the loop
`for (i = 0; i < 9; i++) sum += digits[i] * (10 - i)` of the source. -/
def weightedSum : List Nat → Nat → Nat
  | [], _ => 0
  | d :: ds, w => d * w + weightedSum ds (w - 1)

/-- Validator from the frontend script: requires ten ASCII digits, computes the
weighted modulus-11 check digit, maps both 11 and 10 to 0, and compares with
the tenth digit.  Mirrors `validateNHSNumber` in the source, line for line. -/
def validateNHSNumber (s : String) : Bool :=
  if s.data.length = 10 ∧ s.data.all Char.isDigit then
    let digits := s.data.map digitVal
    let sum := weightedSum (digits.take 9) 10
    let checkDigit := 11 - sum % 11
    let expected := if checkDigit = 11 then 0 else if checkDigit = 10 then 0 else checkDigit
    expected == digits.getD 9 0
  else
    false

/-- Check digit mapping actually implemented by the source (both a computed
check digit of 11 and of 10 are mapped to 0). -/
def nhsExpectedDigit (sum : Nat) : Nat :=
  let checkDigit := 11 - sum % 11
  if checkDigit = 11 then 0 else if checkDigit = 10 then 0 else checkDigit

/-- Modelled from the claim's reference algorithm (the strict NHS standard as
worded in the specification): weighted sum over the first nine digits,
check digit `11 - (sum % 11)` with 11 mapped to 0, and a computed check digit
of exactly 10 makes the identifier invalid regardless of the tenth digit. -/
def strictNHSNumberValid (s : String) : Bool :=
  if s.data.length = 10 ∧ s.data.all Char.isDigit then
    let digits := s.data.map digitVal
    let sum := weightedSum (digits.take 9) 10
    let checkDigit := 11 - sum % 11
    if checkDigit = 10 then false
    else (if checkDigit = 11 then 0 else checkDigit) == digits.getD 9 0
  else
    false

/-- Check digit appended by the generator `generateValidNHSNumber` in the
source: `11 - (sum % 11)`, with 11 mapped to 0 and 10 mapped to 0 as well
(the source comment reads "match our validator behavior"). -/
def genCheckDigit (nine : List Nat) : Nat :=
  let sum := weightedSum nine 10
  let checkDigit := 11 - sum % 11
  if checkDigit = 11 then 0 else if checkDigit = 10 then 0 else checkDigit

/-- Candidate identifier built by one iteration of the generator loop:
the nine leading digits joined, with the mapped check digit appended. -/
def genCandidate (nine : List Nat) : String :=
  digitsToString (nine ++ [genCheckDigit nine])

/-- Generator loop body: try the candidate for draw `k`; if the validator
accepts it, return it, otherwise continue with the next draw.  The source's
`while (true)` loop is given explicit fuel so the definition is total. -/
def generateLoop (draws : Nat → List Nat) (k : Nat) : Nat → Option String
  | 0 => none
  | fuel + 1 =>
    let nhs := genCandidate (draws k)
    if validateNHSNumber nhs then some nhs else generateLoop draws (k + 1) fuel

/-- Generator from the frontend script (`generateValidNHSNumber`): keeps
drawing nine random digits and appending the mapped check digit until the
validator accepts the candidate. -/
def generateValidNHSNumber (draws : Nat → List Nat) (fuel : Nat) : Option String :=
  generateLoop draws 0 fuel

theorem isDigit_digitChar {d : Nat} (hd : d < 10) : (digitChar d).isDigit = true := by
  interval_cases d <;> decide

theorem digitVal_digitChar {d : Nat} (hd : d < 10) : digitVal (digitChar d) = d := by
  interval_cases d <;> decide

theorem all_isDigit_map_digitChar (ds : List Nat) (hds : ∀ x ∈ ds, x < 10) :
    (ds.map digitChar).all Char.isDigit = true := by
  induction ds with
  | nil => rfl
  | cons d ds ih =>
    simp only [List.map_cons, List.all_cons, Bool.and_eq_true]
    exact ⟨isDigit_digitChar (hds d (by simp)), ih fun x hx => hds x (by simp [hx])⟩

theorem map_digitVal_map_digitChar (ds : List Nat) (hds : ∀ x ∈ ds, x < 10) :
    (ds.map digitChar).map digitVal = ds := by
  induction ds with
  | nil => rfl
  | cons d ds ih =>
    simp only [List.map_cons, List.cons.injEq]
    exact ⟨digitVal_digitChar (hds d (by simp)), ih fun x hx => hds x (by simp [hx])⟩

theorem validateNHSNumber_eq (s : String) (hlen : s.data.length = 10)
    (hds : s.data.all Char.isDigit = true) :
    validateNHSNumber s =
      (nhsExpectedDigit (weightedSum ((s.data.map digitVal).take 9) 10) ==
        (s.data.map digitVal).getD 9 0) := by
  unfold validateNHSNumber
  rw [if_pos ⟨hlen, hds⟩]
  rfl

theorem weightedSum_eq_sum (ds : List Nat) (w : Nat) :
    weightedSum ds w = ∑ i in Finset.range ds.length, ds.getD i 0 * (w - i) := by
  induction ds generalizing w with
  | nil => simp [weightedSum]
  | cons d ds ih =>
    rw [weightedSum, List.length_cons, Finset.sum_range_succ']
    simp only [List.getD_cons_succ, List.getD_cons_zero, Nat.sub_zero]
    rw [ih (w - 1), Nat.add_comm]
    congr 1
    refine Finset.sum_congr rfl fun i _ => ?_
    congr 1
    omega

theorem genCheckDigit_lt (nine : List Nat) : genCheckDigit nine < 10 := by
  unfold genCheckDigit
  dsimp only
  split
  · omega
  · split
    · omega
    · omega

theorem validate_genCandidate (nine : List Nat) (hlen : nine.length = 9)
    (hds : ∀ x ∈ nine, x < 10) : validateNHSNumber (genCandidate nine) = true := by
  have hall : ∀ x ∈ nine ++ [genCheckDigit nine], x < 10 := by
    intro x hx
    rcases List.mem_append.mp hx with h | h
    · exact hds x h
    · simp only [List.mem_singleton] at h
      subst h
      exact genCheckDigit_lt nine
  have hdata : (genCandidate nine).data = (nine ++ [genCheckDigit nine]).map digitChar := rfl
  have hlen10 : (genCandidate nine).data.length = 10 := by
    rw [hdata]
    simp [hlen]
  have hdig : (genCandidate nine).data.all Char.isDigit = true := by
    rw [hdata]
    exact all_isDigit_map_digitChar _ hall
  rw [validateNHSNumber_eq _ hlen10 hdig]
  have hmap : (genCandidate nine).data.map digitVal = nine ++ [genCheckDigit nine] := by
    rw [hdata]
    exact map_digitVal_map_digitChar _ hall
  rw [hmap]
  have htake : (nine ++ [genCheckDigit nine]).take 9 = nine := List.take_left' hlen
  have hgetD : (nine ++ [genCheckDigit nine]).getD 9 0 = genCheckDigit nine := by
    rw [List.getD_eq_getElem?_getD, List.getElem?_append_right (by omega)]
    simp [hlen]
  rw [htake, hgetD]
  have hsame : genCheckDigit nine = nhsExpectedDigit (weightedSum nine 10) := rfl
  rw [hsame, beq_self_eq_true]

/-- C1 (amended): for every 10-character string of ASCII digits, the validator
`validateNHSNumber` accepts exactly when the tenth digit equals the check digit
recomputed as `11 - (Σ digit[i] * (10 - i) mod 11)` over the first nine digits,
with a computed value of 11 mapped to 0 and — contrary to the original claim —
a computed value of 10 also mapped to 0 rather than making the string invalid. -/
theorem C1_validator_matches_recomputation (s : String) (hlen : s.data.length = 10)
    (hds : s.data.all Char.isDigit = true) :
    validateNHSNumber s = true ↔
      (s.data.map digitVal).getD 9 0 =
        nhsExpectedDigit (∑ i in Finset.range 9, (s.data.map digitVal).getD i 0 * (10 - i)) := by
  have hdl : (s.data.map digitVal).length = 10 := by simp [hlen]
  have hsum : weightedSum ((s.data.map digitVal).take 9) 10 =
      ∑ i in Finset.range 9, (s.data.map digitVal).getD i 0 * (10 - i) := by
    rw [weightedSum_eq_sum]
    have hlt : ((s.data.map digitVal).take 9).length = 9 := by
      rw [List.length_take, hdl]
      omega
    rw [hlt]
    refine Finset.sum_congr rfl fun i hi => ?_
    rw [Finset.mem_range] at hi
    rw [List.getD_eq_getElem?_getD, List.getD_eq_getElem?_getD, List.getElem?_take_of_lt hi]
  rw [validateNHSNumber_eq s hlen hds, hsum, beq_iff_eq]
  exact eq_comm

/-- C1 counterexample: the ten-digit string 1000000010 has weighted sum 12 over
its first nine digits, hence a computed check digit of exactly 10, so the
claim's reference algorithm (`strictNHSNumberValid`, modelled from the spec's
strict wording) rejects it; the code's `validateNHSNumber` accepts it because
the source maps a computed check digit of 10 to 0 and the tenth digit is 0. -/
theorem C1_counterexample :
    validateNHSNumber "1000000010" = true ∧
    11 - weightedSum (("1000000010".data.map digitVal).take 9) 10 % 11 = 10 ∧
    strictNHSNumberValid "1000000010" = false := by decide

/-- C1 witness: the amended equivalence applied to the concrete digit string
9876543210, whose weighted sum 330 is divisible by 11, giving check digit
11 which maps to 0, the actual tenth digit. -/
theorem C1_witness : validateNHSNumber "9876543210" = true :=
  (C1_validator_matches_recomputation "9876543210" (by decide) (by decide)).mpr (by decide)

/-- C9: generator/validator round trip — for any draw of nine digits, the
candidate built by appending the mapped check digit is a 10-character string
accepted by `validateNHSNumber`, so the generation loop returns the very first
candidate (one unit of fuel suffices). -/
theorem C9_generator_roundtrip (draws : Nat → List Nat) (fuel : Nat) (hfuel : 1 ≤ fuel)
    (hlen : (draws 0).length = 9) (hds : ∀ x ∈ draws 0, x < 10) :
    validateNHSNumber (genCandidate (draws 0)) = true ∧
    (genCandidate (draws 0)).length = 10 ∧
    generateValidNHSNumber draws fuel = some (genCandidate (draws 0)) := by
  have hvalid := validate_genCandidate (draws 0) hlen hds
  refine ⟨hvalid, ?_, ?_⟩
  · have hchars : (genCandidate (draws 0)).length = (genCandidate (draws 0)).data.length := rfl
    rw [hchars]
    show ((draws 0 ++ [genCheckDigit (draws 0)]).map digitChar).length = 10
    simp [hlen]
  · obtain ⟨n, rfl⟩ : ∃ n, fuel = n + 1 := ⟨fuel - 1, by omega⟩
    unfold generateValidNHSNumber generateLoop
    simp [hvalid]

/-- C9 witness: the round trip at the concrete draw 9,8,7,6,5,4,3,2,1 with
one unit of fuel. -/
theorem C9_witness :
    validateNHSNumber (genCandidate ((fun _ => [9, 8, 7, 6, 5, 4, 3, 2, 1]) 0)) = true ∧
    (genCandidate ((fun _ => [9, 8, 7, 6, 5, 4, 3, 2, 1]) 0)).length = 10 ∧
    generateValidNHSNumber (fun _ => [9, 8, 7, 6, 5, 4, 3, 2, 1]) 1 =
      some (genCandidate ((fun _ => [9, 8, 7, 6, 5, 4, 3, 2, 1]) 0)) :=
  C9_generator_roundtrip (fun _ => [9, 8, 7, 6, 5, 4, 3, 2, 1]) 1 (by decide) (by decide)
    (by decide)

/-! ## GPConnectService -/

/-- Environment variables read by `GPConnectService`.  The empty string models
a JS-falsy (unset or empty) variable. -/
structure Env where
  nodeEnv : String
  dbPassword : String
  gpConnectJwtKey : String
  nhsAsid : Option String
  nhsOrgCode : Option String
  nhsUserId : Option String
deriving DecidableEq, Repr

/-- Practice record (`GPPractice` interface in the source). -/
structure GPPractice where
  id : String
  ods_code : String
  name : String
  gp_connect_endpoint : String
  asid : String
  active : Bool
deriving DecidableEq, Repr

/-- In-memory demo practice list of `getPracticeByODS`. -/
def mockPractices : List GPPractice :=
  [ { id := "1", ods_code := "A12345", name := "Example Medical Centre",
      gp_connect_endpoint := "https://gp.example.nhs.uk/gpconnect",
      asid := "ABC123456789", active := true },
    { id := "2", ods_code := "B67890", name := "Community Health Practice",
      gp_connect_endpoint := "https://community.example.nhs.uk/fhir",
      asid := "DEF123456789", active := true },
    { id := "3", ods_code := "C11111", name := "Riverside Surgery",
      gp_connect_endpoint := "https://riverside.example.nhs.uk/fhir",
      asid := "GHI123456789", active := true } ]

/-- Hardcoded record returned by the catch-block fallback of
`getPracticeByODS` when the requested code is A12345. -/
def fallbackPractice : GPPractice :=
  { id := "1", ods_code := "A12345", name := "Example Medical Centre",
    gp_connect_endpoint := "https://gp.example.nhs.uk/gpconnect",
    asid := "ABC123456789", active := true }

/-- Practice directory lookup.  `dbLookup` is the database's answer to the
`ods_code = odsCode AND active = true` query, or the exception it threw; the
surrounding `try`/`catch` of the source makes the function total.  In demo
mode (or with no database password) the in-memory list is consulted instead
and the query is never issued. -/
def getPracticeByODS (env : Env) (dbLookup : Except String (Option GPPractice))
    (odsCode : String) : Option GPPractice :=
  if env.nodeEnv = "demo" ∨ env.dbPassword = "" then
    mockPractices.find? (fun p => p.ods_code == odsCode)
  else
    match dbLookup with
    | Except.ok practice => practice
    | Except.error _ =>
      if odsCode = "A12345" then some fallbackPractice else none

/-- Identifier block nested in the JWT claim set. -/
structure ClaimIdentifier where
  system : String
  value : Option String
deriving DecidableEq, Repr

/-- Requesting device / organisation / practitioner block of the JWT claim set. -/
structure RequestingResource where
  resourceType : String
  identifier : List ClaimIdentifier
deriving DecidableEq, Repr

/-- Claim set signed by `generateJWT` when a signing key is configured. -/
structure JwtPayload where
  iss : Option String
  sub : Option String
  aud : String
  exp : Int
  iat : Int
  reason_for_request : String
  requested_scope : String
  requesting_device : RequestingResource
  requesting_organization : RequestingResource
  requesting_practitioner : RequestingResource
deriving DecidableEq, Repr

/-- Result of `generateJWT`: either the demo placeholder token (carrying the
clock reading embedded in the string `demo-jwt-token-<now>`) or an RS512-signed
claim set. -/
inductive JwtToken where
  | demoToken : Int → JwtToken
  | signedToken : JwtPayload → JwtToken
deriving DecidableEq, Repr

/-- Assertion generator.  `now` is the clock reading, in milliseconds;
`Math.floor(Date.now() / 1000)` becomes `now / 1000`. -/
def generateJWT (env : Env) (now : Int) (asid : String) (endpoint : String) : JwtToken :=
  if env.nodeEnv = "demo" ∨ env.gpConnectJwtKey = "" then
    JwtToken.demoToken now
  else
    JwtToken.signedToken
      { iss := env.nhsAsid
        sub := env.nhsAsid
        aud := endpoint
        exp := now / 1000 + 5 * 60
        iat := now / 1000
        reason_for_request := "directcare"
        requested_scope := "patient/*.read"
        requesting_device :=
          { resourceType := "Device"
            identifier := [{ system := "https://fhir.nhs.uk/Id/nhsSpineASID",
                             value := some asid }] }
        requesting_organization :=
          { resourceType := "Organization"
            identifier := [{ system := "https://fhir.nhs.uk/Id/ods-organization-code",
                             value := env.nhsOrgCode }] }
        requesting_practitioner :=
          { resourceType := "Practitioner"
            identifier := [{ system := "https://fhir.nhs.uk/Id/sds-user-id",
                             value := env.nhsUserId }] } }

/-- Practitioner reference attached to a slot. -/
structure SlotPractitioner where
  reference : String
  display : String
deriving DecidableEq, Repr

/-- Internal slot shape (`AppointmentSlot` interface).  `start`/`end_` hold the
instants whose ISO renderings the source stores; `end_` is the source's `end`. -/
structure AppointmentSlot where
  id : String
  start : Int
  end_ : Int
  status : String
  practitioner : SlotPractitioner
deriving DecidableEq, Repr

/-- Slot resource inside one entry of the FHIR search response. -/
structure FhirSlotResource where
  resourceType : String
  id : String
  start : Int
  end_ : Int
  status : String
  schedule : Option String
deriving DecidableEq, Repr

/-- One entry of the FHIR search-set bundle. -/
structure FhirEntry where
  resource : FhirSlotResource
deriving DecidableEq, Repr

/-- Transformation of the FHIR response applied by `searchAvailableSlots`
(lines filtering on `resourceType === 'Slot'` and mapping to the internal
shape); `none` models an absent `entry` array (`?.` with `|| []`). -/
def transformFhirSlots (entries : Option (List FhirEntry)) : List AppointmentSlot :=
  match entries with
  | none => []
  | some es =>
    (es.filter (fun entry => entry.resource.resourceType == "Slot")).map
      (fun entry =>
        { id := entry.resource.id
          start := entry.resource.start
          end_ := entry.resource.end_
          status := entry.resource.status
          practitioner := { reference := entry.resource.schedule.getD "Unknown",
                            display := "GP Practitioner" } })

/-- Mock slot list (`getMockSlots`): three slots tomorrow at 9:00, 10.5 and 14
hours past `now + 24h`, one the day after at 11.25 hours, each 15 minutes long
and `free`.  Offsets in milliseconds: 10.5 h = 37800000 ms, 11.25 h = 40500000 ms.
Each `id` consumes a fresh UUID draw, as `slot-${uuidv4()}` does. -/
def getMockSlots (now : Int) (uuid : Nat → String) : List AppointmentSlot :=
  let today := now
  let tomorrow := today + 24 * 60 * 60 * 1000
  let dayAfter := today + 2 * 24 * 60 * 60 * 1000
  [ { id := "slot-" ++ uuid 0
      start := tomorrow + 9 * 60 * 60 * 1000
      end_ := tomorrow + 9 * 60 * 60 * 1000 + 15 * 60 * 1000
      status := "free"
      practitioner := { reference := "Practitioner/dr-smith", display := "Dr. Sarah Smith" } },
    { id := "slot-" ++ uuid 1
      start := tomorrow + 37800000
      end_ := tomorrow + 37800000 + 15 * 60 * 1000
      status := "free"
      practitioner := { reference := "Practitioner/dr-wilson", display := "Dr. James Wilson" } },
    { id := "slot-" ++ uuid 2
      start := tomorrow + 14 * 60 * 60 * 1000
      end_ := tomorrow + 14 * 60 * 60 * 1000 + 15 * 60 * 1000
      status := "free"
      practitioner := { reference := "Practitioner/dr-johnson", display := "Dr. Emily Johnson" } },
    { id := "slot-" ++ uuid 3
      start := dayAfter + 40500000
      end_ := dayAfter + 40500000 + 15 * 60 * 1000
      status := "free"
      practitioner := { reference := "Practitioner/dr-brown", display := "Dr. Michael Brown" } } ]

/-- Availability query.  `slotResponse` is the outcome of the outbound
`GET .../Slot` call: an exception, or a bundle whose `entry` array may be
absent.  The source's single `catch` turns the practice-not-found throw and
any external failure alike into the mock fallback, so the function is total
and never surfaces an error.  `fromDate`, `toDate` and `duration` are accepted
and logged by the source but do not influence the result beyond the real call
(whose outcome is `slotResponse` here). -/
def searchAvailableSlots (env : Env) (dbLookup : Except String (Option GPPractice))
    (slotResponse : Except String (Option (List FhirEntry)))
    (now : Int) (uuid : Nat → String)
    (odsCode : String) (fromDate : String) (toDate : String) (duration : Int) :
    List AppointmentSlot :=
  match getPracticeByODS env dbLookup odsCode with
  | none => getMockSlots now uuid
  | some _practice =>
    if env.nodeEnv = "demo" ∨ env.gpConnectJwtKey = "" then
      getMockSlots now uuid
    else
      match slotResponse with
      | Except.ok entries => transformFhirSlots entries
      | Except.error _ => getMockSlots now uuid

/-- Contact preference block of a booking request. -/
structure ContactPreferences where
  phone : Option String
  email : Option String
  sms : Option Bool
deriving DecidableEq, Repr

/-- Booking request (`BookingRequest` interface). -/
structure BookingRequest where
  patientNHSNumber : String
  gpPracticeODSCode : String
  appointmentType : String
  reasonForAppointment : String
  urgency : String
  duration : Int
  bookedBy : String
  contactPreferences : ContactPreferences
deriving DecidableEq, Repr

/-- FHIR coding triple. -/
structure Coding where
  system : String
  code : String
  display : String
deriving DecidableEq, Repr

/-- Service type entry of the appointment resource. -/
structure ServiceTypeEntry where
  coding : List Coding
deriving DecidableEq, Repr

/-- Reason entry of the appointment resource. -/
structure ReasonCodeEntry where
  text : String
deriving DecidableEq, Repr

/-- Identifier of a participant actor. -/
structure ActorIdentifier where
  system : String
  value : String
deriving DecidableEq, Repr

/-- Participant actor of the appointment resource. -/
structure ParticipantActor where
  identifier : ActorIdentifier
deriving DecidableEq, Repr

/-- Participant entry of the appointment resource. -/
structure AppointmentParticipant where
  actor : ParticipantActor
  status : String
deriving DecidableEq, Repr

/-- FHIR appointment resource.  Fields absent from a given source object
(`id` on the real resource, `serviceType`/`reasonCode` on the mock response)
are `Option`s, matching JavaScript's missing properties. -/
structure AppointmentResource where
  resourceType : String
  id : Option String
  status : String
  serviceType : Option (List ServiceTypeEntry)
  reasonCode : Option (List ReasonCodeEntry)
  start : Int
  end_ : Int
  minutesDuration : Int
  participant : List AppointmentParticipant
deriving DecidableEq, Repr

/-- Per-channel notification outcome. -/
structure NotificationOutcome where
  method : String
  success : Bool
  messageId : Option String
deriving DecidableEq, Repr

/-- Value returned by a successful booking: the appointment resource plus the
notification outcomes. -/
structure BookingResult where
  appointment : AppointmentResource
  notifications : List NotificationOutcome
deriving DecidableEq, Repr

/-- FHIR appointment resource built by `bookAppointment` (lines 282-315 of the
source): status `booked`, fixed GP service type, reason text copied from the
request, `start = now`, `end = now + duration minutes`, one accepted
participant carrying the patient's NHS number. -/
def buildAppointmentResource (now : Int) (bookingRequest : BookingRequest) :
    AppointmentResource :=
  { resourceType := "Appointment"
    id := none
    status := "booked"
    serviceType := some [{ coding := [{ system := "http://hl7.org/fhir/service-type",
                                        code := "gp", display := "General Practice" }] }]
    reasonCode := some [{ text := bookingRequest.reasonForAppointment }]
    start := now
    end_ := now + bookingRequest.duration * 60000
    minutesDuration := bookingRequest.duration
    participant := [{ actor := { identifier := { system := "https://fhir.nhs.uk/Id/nhs-number",
                                                 value := bookingRequest.patientNHSNumber } },
                      status := "accepted" }] }

/-- Canned mock success returned by `getMockBookingResponse`: fixed window
2024-12-02T10:00:00Z (epoch ms 1733133600000) to 2024-12-02T10:15:00Z
(epoch ms 1733134500000), the request's duration in `minutesDuration`, the
request's NHS number as participant, and two successful notification outcomes. -/
def getMockBookingResponse (uuid : Nat → String) (bookingRequest : BookingRequest) :
    BookingResult :=
  let appointmentId := uuid 0
  { appointment :=
      { resourceType := "Appointment"
        id := some appointmentId
        status := "booked"
        serviceType := none
        reasonCode := none
        start := 1733133600000
        end_ := 1733134500000
        minutesDuration := bookingRequest.duration
        participant := [{ actor := { identifier := { system := "https://fhir.nhs.uk/Id/nhs-number",
                                                     value := bookingRequest.patientNHSNumber } },
                          status := "accepted" }] }
    notifications :=
      [ { method := "email", success := true, messageId := some ("email-" ++ uuid 1) },
        { method := "mesh", success := true, messageId := none } ] }

/-- Booking orchestration.  `createResponse` is the outcome of the outbound
`POST .../Appointment` call and `dbInsert` the outcome of the local
`appointments` insert; an `Except.error` is a throw reaching the single
`catch`, which returns the canned mock success when `NODE_ENV` is exactly
`development` and rethrows otherwise.  The practice-not-found throw lands in
the same `catch`.  Notification dispatch is a logging no-op that cannot fail. -/
def bookAppointment (env : Env) (dbLookup : Except String (Option GPPractice))
    (createResponse : Except String Unit) (dbInsert : Except String Unit)
    (now : Int) (uuid : Nat → String) (bookingRequest : BookingRequest) :
    Except String BookingResult :=
  let onFailure : String → Except String BookingResult := fun err =>
    if env.nodeEnv = "development" then
      Except.ok (getMockBookingResponse uuid bookingRequest)
    else
      Except.error err
  match getPracticeByODS env dbLookup bookingRequest.gpPracticeODSCode with
  | none => onFailure ("GP practice not found: " ++ bookingRequest.gpPracticeODSCode)
  | some _practice =>
    let appointmentResource := buildAppointmentResource now bookingRequest
    match createResponse with
    | Except.error err => onFailure err
    | Except.ok _ =>
      match dbInsert with
      | Except.error err => onFailure err
      | Except.ok _ =>
        Except.ok
          { appointment := appointmentResource
            notifications :=
              [ { method := "email", success := true, messageId := some ("email-" ++ uuid 2) },
                { method := "mesh", success := true, messageId := none } ] }

/-! ## Concrete fixtures used by witnesses and counterexamples -/

/-- Demo-mode environment. -/
def demoEnv : Env :=
  { nodeEnv := "demo", dbPassword := "", gpConnectJwtKey := "",
    nhsAsid := none, nhsOrgCode := none, nhsUserId := none }

/-- Production-like environment: database password and signing key configured. -/
def prodEnv : Env :=
  { nodeEnv := "production", dbPassword := "secret", gpConnectJwtKey := "signing-key",
    nhsAsid := some "200000000359", nhsOrgCode := some "X26", nhsUserId := some "user-1" }

/-- Development environment (the only one in which booking failures are masked). -/
def devEnv : Env :=
  { nodeEnv := "development", dbPassword := "", gpConnectJwtKey := "",
    nhsAsid := none, nhsOrgCode := none, nhsUserId := none }

/-- A non-production, non-development environment. -/
def testEnv : Env :=
  { nodeEnv := "test", dbPassword := "", gpConnectJwtKey := "signing-key",
    nhsAsid := none, nhsOrgCode := none, nhsUserId := none }

/-- A fixed UUID supply. -/
def uuid0 : Nat → String := fun k => "uuid-" ++ toString k

/-- UUID supply of a first run. -/
def uuidA : Nat → String := fun k => "aaaa-" ++ toString k

/-- UUID supply of a second run. -/
def uuidB : Nat → String := fun k => "bbbb-" ++ toString k

/-- Sample booking request for the known practice A12345. -/
def sampleReqA : BookingRequest :=
  { patientNHSNumber := "9876543210", gpPracticeODSCode := "A12345",
    appointmentType := "routine", reasonForAppointment := "Annual health check",
    urgency := "routine", duration := 30, bookedBy := "patient",
    contactPreferences := { phone := none, email := none, sms := some false } }

/-- Sample booking request for the unknown practice Z99999. -/
def sampleReqZ : BookingRequest :=
  { patientNHSNumber := "9876543210", gpPracticeODSCode := "Z99999",
    appointmentType := "routine", reasonForAppointment := "Annual health check",
    urgency := "routine", duration := 15, bookedBy := "patient",
    contactPreferences := { phone := none, email := none, sms := some false } }

/-! ## Theorems about the service layer -/

theorem searchAvailableSlots_demo_eq_mock (env : Env)
    (hdemo : env.nodeEnv = "demo" ∨ env.gpConnectJwtKey = "")
    (dbLookup : Except String (Option GPPractice))
    (slotResponse : Except String (Option (List FhirEntry)))
    (now : Int) (uuid : Nat → String)
    (odsCode fromDate toDate : String) (duration : Int) :
    searchAvailableSlots env dbLookup slotResponse now uuid odsCode fromDate toDate duration =
      getMockSlots now uuid := by
  unfold searchAvailableSlots
  cases getPracticeByODS env dbLookup odsCode with
  | none => rfl
  | some practice => rw [if_pos hdemo]

/-- C2 (amended): for an organization code matching no demo practice and no
active database row, `getPracticeByODS` returns `none`; `bookAppointment`
fails with the not-found error before any external call (its result is the
error for every possible outcome of the create call and of the insert)
provided `NODE_ENV` is not `development`; `searchAvailableSlots`, however,
does not deliver the not-found failure to its caller — its catch-all fallback
returns the 4-slot mock list for every possible outcome of the external call. -/
theorem C2_unknown_practice (env : Env) (code : String)
    (hA : code ≠ "A12345") (hB : code ≠ "B67890") (hC : code ≠ "C11111")
    (bookingRequest : BookingRequest) (hreq : bookingRequest.gpPracticeODSCode = code)
    (hdev : env.nodeEnv ≠ "development") :
    getPracticeByODS env (Except.ok none) code = none ∧
    (∀ createResponse dbInsert now uuid,
      bookAppointment env (Except.ok none) createResponse dbInsert now uuid bookingRequest =
        Except.error ("GP practice not found: " ++ code)) ∧
    (∀ slotResponse now uuid fromDate toDate duration,
      searchAvailableSlots env (Except.ok none) slotResponse now uuid code
          fromDate toDate duration =
        getMockSlots now uuid) := by
  have hfind : mockPractices.find? (fun p => p.ods_code == code) = none := by
    rw [List.find?_eq_none]
    intro p hp
    simp only [mockPractices, List.mem_cons, List.not_mem_nil, or_false] at hp
    rcases hp with rfl | rfl | rfl <;> simp only [beq_iff_eq] <;> intro h
    · exact hA h.symm
    · exact hB h.symm
    · exact hC h.symm
  have h1 : getPracticeByODS env (Except.ok none) code = none := by
    unfold getPracticeByODS
    split
    · exact hfind
    · rfl
  have h1' : getPracticeByODS env (Except.ok none) bookingRequest.gpPracticeODSCode = none := by
    rw [hreq]
    exact h1
  refine ⟨h1, ?_, ?_⟩
  · intro createResponse dbInsert now uuid
    simp only [bookAppointment, h1']
    rw [if_neg hdev, hreq]
  · intro slotResponse now uuid fromDate toDate duration
    unfold searchAvailableSlots
    rw [h1]

/-- C2 witness: the amended behaviour at the concrete unknown code Z99999 in a
production-like environment. -/
theorem C2_witness :
    getPracticeByODS prodEnv (Except.ok none) "Z99999" = none ∧
    bookAppointment prodEnv (Except.ok none) (Except.ok ()) (Except.ok ()) 0 uuid0 sampleReqZ =
      Except.error ("GP practice not found: " ++ "Z99999") ∧
    searchAvailableSlots prodEnv (Except.ok none) (Except.ok none) 0 uuid0 "Z99999"
        "2024-12-01" "2024-12-07" 15 =
      getMockSlots 0 uuid0 := by
  obtain ⟨h1, h2, h3⟩ := C2_unknown_practice prodEnv "Z99999" (by decide) (by decide)
    (by decide) sampleReqZ rfl (by decide)
  exact ⟨h1, h2 _ _ _ _, h3 _ _ _ _ _ _⟩

/-- C2 counterexample: contrary to the claim, the availability search for the
unknown code Z99999 does not return a not-found failure — the not-found throw
is swallowed by the catch-all of `searchAvailableSlots`, and the caller
receives the 4-slot mock list. -/
theorem C2_counterexample :
    (searchAvailableSlots demoEnv (Except.ok none) (Except.ok none) 0 uuid0 "Z99999"
        "2024-12-01" "2024-12-07" 15).length = 4 := by decide

/-- C3 (amended): whenever the external slot-search call throws (the
`Except.error` case: network errors, non-2xx responses rejected by the HTTP
client, exceptions while reading the body), `searchAvailableSlots` never
raises or propagates the error and returns the mock fallback list of exactly
4 slots.  A malformed 2xx response, however, does not throw in the source:
the transformation's optional chaining and `|| []` default (modelled by
`transformFhirSlots none`) turn a body without a parseable `entry` array into
an empty slot list, which is returned to the caller as-is — not the mock
fallback. -/
theorem C3_search_error_returns_mock (env : Env)
    (dbLookup : Except String (Option GPPractice)) (err : String)
    (now : Int) (uuid : Nat → String)
    (odsCode fromDate toDate : String) (duration : Int) :
    searchAvailableSlots env dbLookup (Except.error err) now uuid odsCode
        fromDate toDate duration =
      getMockSlots now uuid ∧
    (getMockSlots now uuid).length = 4 ∧
    (∀ practice : GPPractice,
      getPracticeByODS env dbLookup odsCode = some practice →
      ¬ (env.nodeEnv = "demo" ∨ env.gpConnectJwtKey = "") →
      searchAvailableSlots env dbLookup (Except.ok none) now uuid odsCode
          fromDate toDate duration = []) := by
  refine ⟨?_, rfl, ?_⟩
  · unfold searchAvailableSlots
    cases getPracticeByODS env dbLookup odsCode with
    | none => rfl
    | some practice =>
      by_cases hdemo : env.nodeEnv = "demo" ∨ env.gpConnectJwtKey = ""
      · rw [if_pos hdemo]
      · rw [if_neg hdemo]
  · intro practice hprac hdemo
    unfold searchAvailableSlots
    rw [hprac, if_neg hdemo]
    rfl

/-- C3 witness: for the known practice A12345 in a production-like
environment, a throwing external call (timeout) yields the 4-slot mock
fallback, while a malformed 2xx response yields the empty list. -/
theorem C3_witness :
    searchAvailableSlots prodEnv (Except.ok (some fallbackPractice)) (Except.error "ETIMEDOUT")
        0 uuid0 "A12345" "2024-12-01" "2024-12-07" 15 =
      getMockSlots 0 uuid0 ∧
    (getMockSlots 0 uuid0).length = 4 ∧
    searchAvailableSlots prodEnv (Except.ok (some fallbackPractice)) (Except.ok none)
        0 uuid0 "A12345" "2024-12-01" "2024-12-07" 15 = [] := by
  obtain ⟨h1, h2, h3⟩ := C3_search_error_returns_mock prodEnv
    (Except.ok (some fallbackPractice)) "ETIMEDOUT" 0 uuid0 "A12345"
    "2024-12-01" "2024-12-07" 15
  exact ⟨h1, h2, h3 fallbackPractice rfl (by decide)⟩

/-- C3 counterexample: a 2xx response whose body carries no parseable `entry`
array (a malformed or non-Bundle body, modelled as `Except.ok none`) does not
throw in the source — `response.data.entry?.filter(...).map(...) || []`
short-circuits to the empty array — so the search for the known practice
A12345 returns an empty slot list to its caller, not the non-empty 4-slot
mock fallback the claim promises for every failing external call. -/
theorem C3_counterexample :
    searchAvailableSlots prodEnv (Except.ok (some fallbackPractice)) (Except.ok none)
        0 uuid0 "A12345" "2024-12-01" "2024-12-07" 15 = [] := by rfl

/-- C4 (amended): when booking fails after practice resolution (failing
external create call, or failing local insert), `bookAppointment` returns the
canned mock success exactly when `NODE_ENV` equals `development`; in every
other configuration — including non-production ones such as `demo` or `test` —
the error propagates to the caller unmodified. -/
theorem C4_mock_success_only_in_development (env : Env)
    (dbLookup : Except String (Option GPPractice)) (practice : GPPractice)
    (bookingRequest : BookingRequest)
    (hprac : getPracticeByODS env dbLookup bookingRequest.gpPracticeODSCode = some practice)
    (err : String) (dbInsert : Except String Unit) (now : Int) (uuid : Nat → String) :
    (bookAppointment env dbLookup (Except.error err) dbInsert now uuid bookingRequest =
      if env.nodeEnv = "development" then
        Except.ok (getMockBookingResponse uuid bookingRequest)
      else Except.error err) ∧
    (bookAppointment env dbLookup (Except.ok ()) (Except.error err) now uuid bookingRequest =
      if env.nodeEnv = "development" then
        Except.ok (getMockBookingResponse uuid bookingRequest)
      else Except.error err) := by
  constructor
  · simp only [bookAppointment, hprac]
  · simp only [bookAppointment, hprac]

/-- C4 counterexample: `test` is a non-production configuration, yet a failing
external create call for the known practice A12345 propagates as an error
instead of yielding the mock success the claim promises for every
non-production configuration. -/
theorem C4_counterexample :
    testEnv.nodeEnv ≠ "production" ∧
    bookAppointment testEnv (Except.ok none) (Except.error "ECONNREFUSED") (Except.ok ())
        0 uuid0 sampleReqA =
      Except.error "ECONNREFUSED" := by
  constructor
  · decide
  · rfl

/-- C4 witness: in the `development` configuration the same failure is masked
by the canned mock success. -/
theorem C4_witness :
    bookAppointment devEnv (Except.ok none) (Except.error "ECONNREFUSED") (Except.ok ())
        0 uuid0 sampleReqA =
      Except.ok (getMockBookingResponse uuid0 sampleReqA) := by
  have h := (C4_mock_success_only_in_development devEnv (Except.ok none) fallbackPractice
    sampleReqA (by rfl) "ECONNREFUSED" (Except.ok ()) 0 uuid0).1
  rw [h]
  rfl

/-- C5: for any booking request whose organization code resolves to a known
practice, when the external create call and the local insert succeed,
`bookAppointment` returns a result whose `minutesDuration` equals the
requested duration, whose `end` minus `start` equals the requested duration in
minutes (60000 ms per minute), and whose sole participant actor identifier
value is the request's patient NHS number. -/
theorem C5_booking_success_fields (env : Env)
    (dbLookup : Except String (Option GPPractice)) (practice : GPPractice)
    (bookingRequest : BookingRequest)
    (hprac : getPracticeByODS env dbLookup bookingRequest.gpPracticeODSCode = some practice)
    (now : Int) (uuid : Nat → String) :
    ∃ result : BookingResult,
      bookAppointment env dbLookup (Except.ok ()) (Except.ok ()) now uuid bookingRequest =
        Except.ok result ∧
      result.appointment.minutesDuration = bookingRequest.duration ∧
      result.appointment.end_ - result.appointment.start = bookingRequest.duration * 60000 ∧
      result.appointment.participant.map (fun part => part.actor.identifier.value) =
        [bookingRequest.patientNHSNumber] := by
  refine ⟨{ appointment := buildAppointmentResource now bookingRequest,
            notifications :=
              [ { method := "email", success := true, messageId := some ("email-" ++ uuid 2) },
                { method := "mesh", success := true, messageId := none } ] }, ?_, rfl, ?_, rfl⟩
  · simp only [bookAppointment, hprac]
  · show now + bookingRequest.duration * 60000 - now = bookingRequest.duration * 60000
    omega

/-- C5 witness: the successful booking of `sampleReqA` (duration 30) at the
known demo practice A12345. -/
theorem C5_witness :
    ∃ result : BookingResult,
      bookAppointment demoEnv (Except.ok none) (Except.ok ()) (Except.ok ()) 0 uuid0 sampleReqA =
        Except.ok result ∧
      result.appointment.minutesDuration = sampleReqA.duration ∧
      result.appointment.end_ - result.appointment.start = sampleReqA.duration * 60000 ∧
      result.appointment.participant.map (fun part => part.actor.identifier.value) =
        [sampleReqA.patientNHSNumber] :=
  C5_booking_success_fields demoEnv (Except.ok none) fallbackPractice sampleReqA (by rfl) 0 uuid0

/-- C6 (amended): in demo/no-signing-key mode, two runs of the availability
search with the same inputs and the same clock reading agree on the slots'
start and end instants, statuses and practitioners, and both return exactly 4
slots — but only up to the slot identifiers, which are fresh UUID draws and so
differ between runs (see the counterexample). -/
theorem C6_demo_slots_deterministic_up_to_ids (env : Env)
    (hdemo : env.nodeEnv = "demo" ∨ env.gpConnectJwtKey = "")
    (dbLookup1 dbLookup2 : Except String (Option GPPractice))
    (slotResponse1 slotResponse2 : Except String (Option (List FhirEntry)))
    (now : Int) (uuid1 uuid2 : Nat → String)
    (odsCode fromDate toDate : String) (duration : Int) :
    (searchAvailableSlots env dbLookup1 slotResponse1 now uuid1 odsCode
        fromDate toDate duration).length = 4 ∧
    (searchAvailableSlots env dbLookup1 slotResponse1 now uuid1 odsCode
        fromDate toDate duration).map (fun s => (s.start, s.end_, s.status, s.practitioner)) =
      (searchAvailableSlots env dbLookup2 slotResponse2 now uuid2 odsCode
        fromDate toDate duration).map (fun s => (s.start, s.end_, s.status, s.practitioner)) := by
  rw [searchAvailableSlots_demo_eq_mock env hdemo dbLookup1 slotResponse1 now uuid1 odsCode
        fromDate toDate duration,
      searchAvailableSlots_demo_eq_mock env hdemo dbLookup2 slotResponse2 now uuid2 odsCode
        fromDate toDate duration]
  exact ⟨rfl, rfl⟩

/-- C6 witness: the agreement modulo identifiers for two concrete runs with
the UUID supplies `uuidA` and `uuidB`. -/
theorem C6_witness :
    (searchAvailableSlots demoEnv (Except.ok none) (Except.ok none) 0 uuidA "A12345"
        "2024-12-01" "2024-12-07" 15).length = 4 ∧
    (searchAvailableSlots demoEnv (Except.ok none) (Except.ok none) 0 uuidA "A12345"
        "2024-12-01" "2024-12-07" 15).map (fun s => (s.start, s.end_, s.status, s.practitioner)) =
      (searchAvailableSlots demoEnv (Except.ok none) (Except.ok none) 0 uuidB "A12345"
        "2024-12-01" "2024-12-07" 15).map (fun s => (s.start, s.end_, s.status, s.practitioner)) :=
  C6_demo_slots_deterministic_up_to_ids demoEnv (Or.inl rfl) _ _ _ _ 0 uuidA uuidB _ _ _ _

/-- C6 counterexample: slot identifiers are built as `slot-${uuidv4()}` from
fresh random draws, so two runs with identical inputs and identical clock
reading disagree on the slot identifiers — the returned slot lists are not the
same, refuting the claimed determinism of the identifiers. -/
theorem C6_counterexample :
    (searchAvailableSlots demoEnv (Except.ok none) (Except.ok none) 0 uuidA "A12345"
        "2024-12-01" "2024-12-07" 15).map (fun s => s.id) ≠
      (searchAvailableSlots demoEnv (Except.ok none) (Except.ok none) 0 uuidB "A12345"
        "2024-12-01" "2024-12-07" 15).map (fun s => s.id) := by decide

/-- C7: if the persistent lookup throws in normal (non-demo, password
configured) mode, `getPracticeByODS` swallows the exception — its return type
is total — and returns the hardcoded Example Medical Centre record exactly for
the code A12345, and `none` for every other code. -/
theorem C7_lookup_error_fallback (env : Env)
    (henv : ¬ (env.nodeEnv = "demo" ∨ env.dbPassword = ""))
    (err : String) (odsCode : String) :
    (odsCode = "A12345" → getPracticeByODS env (Except.error err) odsCode = some fallbackPractice) ∧
    (odsCode ≠ "A12345" → getPracticeByODS env (Except.error err) odsCode = none) := by
  constructor
  · intro h
    unfold getPracticeByODS
    rw [if_neg henv]
    exact if_pos h
  · intro h
    unfold getPracticeByODS
    rw [if_neg henv]
    exact if_neg h

/-- C7 witness: the error fallback at the concrete codes A12345 and Z99999 in
the production-like environment. -/
theorem C7_witness :
    getPracticeByODS prodEnv (Except.error "connection lost") "A12345" = some fallbackPractice ∧
    getPracticeByODS prodEnv (Except.error "connection lost") "Z99999" = none :=
  ⟨(C7_lookup_error_fallback prodEnv (by decide) "connection lost" "A12345").1 rfl,
   (C7_lookup_error_fallback prodEnv (by decide) "connection lost" "Z99999").2 (by decide)⟩

/-- C8: whenever a signing key is configured (so the demo placeholder branch
is not taken), the signed claim set has `iat` equal to the generation instant
in seconds and `exp` exactly 300 seconds (5 minutes) later. -/
theorem C8_jwt_expiry_300s (env : Env) (now : Int) (asid endpoint : String)
    (hkey : ¬ (env.nodeEnv = "demo" ∨ env.gpConnectJwtKey = "")) :
    ∃ payload : JwtPayload,
      generateJWT env now asid endpoint = JwtToken.signedToken payload ∧
      payload.iat = now / 1000 ∧
      payload.exp = payload.iat + 300 := by
  unfold generateJWT
  rw [if_neg hkey]
  exact ⟨_, rfl, rfl, by norm_num⟩

/-- C8 witness: the signed assertion generated at the concrete instant
2024-12-01T14:00:00Z-ish (epoch ms 1733097600000) in the production-like
environment. -/
theorem C8_witness :
    ∃ payload : JwtPayload,
      generateJWT prodEnv 1733097600000 "ABC123456789" "https://gp.example.nhs.uk/gpconnect" =
        JwtToken.signedToken payload ∧
      payload.iat = 1733097600000 / 1000 ∧
      payload.exp = payload.iat + 300 :=
  C8_jwt_expiry_300s prodEnv 1733097600000 "ABC123456789"
    "https://gp.example.nhs.uk/gpconnect" (by decide)

/-- C10: the mock fallback ignores the requested duration entirely — in
demo/no-signing-key mode the search returns `getMockSlots`, which does not
even receive the duration, for any requested duration in [10, 60], and every
slot of the mock list has status `free` and an end exactly 15 minutes after
its start. -/
theorem C10_mock_slots_fixed_duration (env : Env)
    (hdemo : env.nodeEnv = "demo" ∨ env.gpConnectJwtKey = "")
    (dbLookup : Except String (Option GPPractice))
    (slotResponse : Except String (Option (List FhirEntry)))
    (now : Int) (uuid : Nat → String) (odsCode fromDate toDate : String)
    (duration : Int) (hd1 : 10 ≤ duration) (hd2 : duration ≤ 60) :
    searchAvailableSlots env dbLookup slotResponse now uuid odsCode fromDate toDate duration =
      getMockSlots now uuid ∧
    ∀ s ∈ getMockSlots now uuid, s.status = "free" ∧ s.end_ - s.start = 15 * 60000 := by
  refine ⟨searchAvailableSlots_demo_eq_mock env hdemo _ _ _ _ _ _ _ _, ?_⟩
  intro s hs
  simp only [getMockSlots, List.mem_cons, List.not_mem_nil, or_false] at hs
  rcases hs with rfl | rfl | rfl | rfl <;> refine ⟨rfl, ?_⟩ <;> dsimp only <;> omega

/-- C10 witness: a search requesting 45-minute appointments still gets the
15-minute mock slots. -/
theorem C10_witness :
    searchAvailableSlots demoEnv (Except.ok none) (Except.ok none) 0 uuid0 "A12345"
        "2024-12-01" "2024-12-07" 45 =
      getMockSlots 0 uuid0 ∧
    ∀ s ∈ getMockSlots 0 uuid0, s.status = "free" ∧ s.end_ - s.start = 15 * 60000 :=
  C10_mock_slots_fixed_duration demoEnv (Or.inl rfl) _ _ _ _ _ _ _ 45 (by norm_num) (by norm_num)

end NHSBooking
